import Mathlib

/-!
Verification development for the resume/job tracker.

The embedding follows the repository's source:
  * `src/app.py`  — helpers (`safe_json`, `iso_or_empty`, `iso_to_date_or_none`),
    the Gemini response handling (`extract_job_from_url`, `tailor_resume`),
    and the button handlers (save job, update status).
  * `src/db.py`   — the Postgres-backed repository (`insert_resume`,
    `list_resumes`, `get_resume`, `insert_job`, `list_jobs`, `get_job`,
    `update_job_status`, `update_job_reporting_dates`, `insert_version`,
    `list_versions_for_job`, `jobs_report_rows`, `followups_due_rows`).

The database is modelled as explicit lists of rows plus id counters (Postgres
serial columns).  SQL `WHERE` is `List.filter`, `ORDER BY` is
`List.insertionSort`, the `versions`/`resumes` join in
`list_versions_for_job` is an explicit nested-loop join.  The session user
(`st.session_state["current_user_email"]`, read by `_get_user_email`) is
passed as an explicit `u : String` argument.
-/

-- ---------------------------------------------------------------------------
-- Python string helpers
-- ---------------------------------------------------------------------------

/-- Whitespace set of Python's `str.strip()` (ASCII part; the claims only use
ASCII data). -/
def isPyWs (c : Char) : Bool :=
  c = ' ' || c = '\t' || c = '\n' || c = '\r' || c = '\x0b' || c = '\x0c'

/-- Python `s.strip()`. -/
def pyStrip (s : String) : String :=
  ⟨((s.data.dropWhile isPyWs).reverse.dropWhile isPyWs).reverse⟩

/-- The backtick character (written via its code point). -/
def backtickChar : Char := Char.ofNat 96

/-- Python `s.strip(c)` for a single strip character `c`. -/
def pyStripChars (s : String) (c : Char) : String :=
  ⟨((s.data.dropWhile (· = c)).reverse.dropWhile (· = c)).reverse⟩

/-- Python `s.startswith(pre)`. -/
def pyStartsWith (s pre : String) : Bool :=
  pre.data.isPrefixOf s.data

/-- Remove the first occurrence of `pat` from `l` (`str.replace(pat, "", 1)`).
Returns `none` when `pat` does not occur. -/
def removeFirstAux (pat : List Char) : List Char → Option (List Char)
  | [] => if pat = [] then some [] else none
  | c :: cs =>
    if pat.isPrefixOf (c :: cs) then some ((c :: cs).drop pat.length)
    else (removeFirstAux pat cs).map (c :: ·)

/-- Python `s.replace(pat, "", 1)`. -/
def replaceFirst (s pat : String) : String :=
  match removeFirstAux pat.data s.data with
  | some l => ⟨l⟩
  | none => s

/-- Python `"\n".join(xs)`. -/
def joinNl : List String → String
  | [] => ""
  | [x] => x
  | x :: xs => x ++ "\n" ++ joinNl xs

-- ---------------------------------------------------------------------------
-- JSON values and a model of Python's `json.loads`
-- ---------------------------------------------------------------------------

/-- JSON values.  Numbers keep their source lexeme (the claims never compute
with numbers, only with acceptance/structure). -/
inductive Json where
  | null : Json
  | bool (b : Bool) : Json
  | num (lexeme : String) : Json
  | str (s : String) : Json
  | arr (items : List Json) : Json
  | obj (members : List (String × Json)) : Json

/-- The opening curly brace character. -/
def lbrace : Char := Char.ofNat 123

/-- The closing curly brace character. -/
def rbrace : Char := Char.ofNat 125

/-- JSON insignificant whitespace (what `json.loads` skips between tokens). -/
def isJsonWs (c : Char) : Bool :=
  c = ' ' || c = '\t' || c = '\n' || c = '\r'

def skipWs : List Char → List Char
  | [] => []
  | c :: cs => if isJsonWs c then skipWs cs else c :: cs

def hexDigitVal (c : Char) : Option Nat :=
  if 48 ≤ c.toNat ∧ c.toNat ≤ 57 then some (c.toNat - 48)
  else if 97 ≤ c.toNat ∧ c.toNat ≤ 102 then some (c.toNat - 87)
  else if 65 ≤ c.toNat ∧ c.toNat ≤ 70 then some (c.toNat - 55)
  else none

/-- Body of a JSON string after the opening quote: returns the decoded
characters and the remainder after the closing quote.  Strict mode: raw
control characters are rejected; the escapes are JSON's. (Surrogate-pair
combination of `\u` escapes is not modelled; no claim exercises it.) -/
def parseStringBody : List Char → Option (List Char × List Char)
  | [] => none
  | '"' :: cs => some ([], cs)
  | '\\' :: '"' :: cs => (parseStringBody cs).map (fun p => ('"' :: p.1, p.2))
  | '\\' :: '\\' :: cs => (parseStringBody cs).map (fun p => ('\\' :: p.1, p.2))
  | '\\' :: '/' :: cs => (parseStringBody cs).map (fun p => ('/' :: p.1, p.2))
  | '\\' :: 'b' :: cs => (parseStringBody cs).map (fun p => ('\x08' :: p.1, p.2))
  | '\\' :: 'f' :: cs => (parseStringBody cs).map (fun p => ('\x0c' :: p.1, p.2))
  | '\\' :: 'n' :: cs => (parseStringBody cs).map (fun p => ('\n' :: p.1, p.2))
  | '\\' :: 'r' :: cs => (parseStringBody cs).map (fun p => ('\r' :: p.1, p.2))
  | '\\' :: 't' :: cs => (parseStringBody cs).map (fun p => ('\t' :: p.1, p.2))
  | '\\' :: 'u' :: a :: b :: c :: d :: cs =>
    match hexDigitVal a, hexDigitVal b, hexDigitVal c, hexDigitVal d with
    | some x1, some x2, some x3, some x4 =>
      (parseStringBody cs).map
        (fun p => (Char.ofNat (((x1 * 16 + x2) * 16 + x3) * 16 + x4) :: p.1, p.2))
    | _, _, _, _ => none
  | '\\' :: _ => none
  | c :: cs =>
    if 32 ≤ c.toNat then (parseStringBody cs).map (fun p => (c :: p.1, p.2))
    else none

def spanDigits : List Char → List Char × List Char
  | [] => ([], [])
  | c :: cs =>
    if c.isDigit then
      let p := spanDigits cs
      (c :: p.1, p.2)
    else ([], c :: cs)

/-- Integer part of a JSON number: `0` or a nonzero digit followed by digits. -/
def parseIntPart : List Char → Option (List Char × List Char)
  | [] => none
  | '0' :: cs => some (['0'], cs)
  | c :: cs =>
    if c.isDigit then
      let p := spanDigits cs
      some (c :: p.1, p.2)
    else none

/-- Optional fraction part `.digits+`; not consumed when absent/ill-formed. -/
def parseFrac : List Char → List Char × List Char
  | '.' :: cs =>
    match spanDigits cs with
    | ([], _) => ([], '.' :: cs)
    | (ds, rest) => ('.' :: ds, rest)
  | cs => ([], cs)

/-- Optional exponent part `[eE][+-]?digits+`; not consumed when absent. -/
def parseExp : List Char → List Char × List Char
  | c :: s :: cs =>
    if c = 'e' ∨ c = 'E' then
      if s = '+' ∨ s = '-' then
        match spanDigits cs with
        | ([], _) => ([], c :: s :: cs)
        | (ds, rest) => (c :: s :: ds, rest)
      else
        match spanDigits (s :: cs) with
        | ([], _) => ([], c :: s :: cs)
        | (ds, rest) => (c :: ds, rest)
    else ([], c :: s :: cs)
  | cs => ([], cs)

/-- A JSON number lexeme `-?(0|[1-9][0-9]*)(\.[0-9]+)?([eE][+-]?[0-9]+)?`. -/
def parseNumber : List Char → Option (List Char × List Char)
  | '-' :: cs =>
    (parseIntPart cs).map (fun p =>
      let f := parseFrac p.2
      let e := parseExp f.2
      ('-' :: p.1 ++ f.1 ++ e.1, e.2))
  | cs =>
    (parseIntPart cs).map (fun p =>
      let f := parseFrac p.2
      let e := parseExp f.2
      (p.1 ++ f.1 ++ e.1, e.2))

mutual

/-- One JSON value (with leading whitespace), fuel-bounded recursive descent.
Python's `json.loads` also accepts the constants `NaN`, `Infinity` and
`-Infinity` by default; they are kept as number lexemes. -/
def parseValue : Nat → List Char → Option (Json × List Char)
  | 0, _ => none
  | Nat.succ fuel, cs0 =>
    let cs := skipWs cs0
    match cs with
    | [] => none
    | c :: rest =>
      if c = '"' then (parseStringBody rest).map (fun p => (Json.str ⟨p.1⟩, p.2))
      else if c = lbrace then parseObjBody fuel rest
      else if c = '[' then parseArrBody fuel rest
      else if ['t', 'r', 'u', 'e'].isPrefixOf cs then some (Json.bool true, cs.drop 4)
      else if ['f', 'a', 'l', 's', 'e'].isPrefixOf cs then some (Json.bool false, cs.drop 5)
      else if ['n', 'u', 'l', 'l'].isPrefixOf cs then some (Json.null, cs.drop 4)
      else if ['N', 'a', 'N'].isPrefixOf cs then some (Json.num "NaN", cs.drop 3)
      else if ['I', 'n', 'f', 'i', 'n', 'i', 't', 'y'].isPrefixOf cs then
        some (Json.num "Infinity", cs.drop 8)
      else if ['-', 'I', 'n', 'f', 'i', 'n', 'i', 't', 'y'].isPrefixOf cs then
        some (Json.num "-Infinity", cs.drop 9)
      else (parseNumber cs).map (fun p => (Json.num ⟨p.1⟩, p.2))

/-- Array body after the opening bracket. -/
def parseArrBody : Nat → List Char → Option (Json × List Char)
  | 0, _ => none
  | Nat.succ fuel, cs0 =>
    let cs := skipWs cs0
    match cs with
    | [] => none
    | c :: rest =>
      if c = ']' then some (Json.arr [], rest)
      else (parseArrItems fuel cs).map (fun p => (Json.arr p.1, p.2))

/-- One or more comma-separated array items followed by the closing bracket. -/
def parseArrItems : Nat → List Char → Option (List Json × List Char)
  | 0, _ => none
  | Nat.succ fuel, cs =>
    match parseValue fuel cs with
    | none => none
    | some (v, rest0) =>
      match skipWs rest0 with
      | [] => none
      | c :: rest =>
        if c = ',' then (parseArrItems fuel rest).map (fun p => (v :: p.1, p.2))
        else if c = ']' then some ([v], rest)
        else none

/-- Object body after the opening brace. -/
def parseObjBody : Nat → List Char → Option (Json × List Char)
  | 0, _ => none
  | Nat.succ fuel, cs0 =>
    let cs := skipWs cs0
    match cs with
    | [] => none
    | c :: rest =>
      if c = rbrace then some (Json.obj [], rest)
      else (parseObjItems fuel cs).map (fun p => (Json.obj p.1, p.2))

/-- One or more `"key": value` members followed by the closing brace. -/
def parseObjItems : Nat → List Char → Option (List (String × Json) × List Char)
  | 0, _ => none
  | Nat.succ fuel, cs0 =>
    match skipWs cs0 with
    | [] => none
    | c :: rest =>
      if c = '"' then
        match parseStringBody rest with
        | none => none
        | some (key, rest1) =>
          match skipWs rest1 with
          | [] => none
          | c2 :: rest2 =>
            if c2 = ':' then
              match parseValue fuel rest2 with
              | none => none
              | some (v, rest3) =>
                match skipWs rest3 with
                | [] => none
                | c3 :: rest4 =>
                  if c3 = ',' then
                    (parseObjItems fuel rest4).map (fun p => ((⟨key⟩, v) :: p.1, p.2))
                  else if c3 = rbrace then some ([(⟨key⟩, v)], rest4)
                  else none
            else none
      else none

end

/-- Model of Python `json.loads`: parse one value, allow trailing whitespace
only ("Extra data" otherwise); any failure is `none` (`JSONDecodeError`). -/
def json_loads (s : String) : Option Json :=
  match parseValue (2 * s.length + 4) s.data with
  | some (j, rest) => if skipWs rest = [] then some j else none
  | none => none

-- ---------------------------------------------------------------------------
-- `safe_json` (app.py lines 76-83)
-- ---------------------------------------------------------------------------

/-- Model of `safe_json(text)` from `app.py`: `None` raises `ValueError`; otherwise
strip whitespace, and when the text starts with a code fence strip all
backticks from both ends, drop the first occurrence of `"json\n"`, strip
again, then `json.loads`.  A parse failure is the propagated
`json.JSONDecodeError` (its Python message is abstracted to a marker). -/
def safe_json (text : Option String) : Except String Json :=
  match text with
  | none => Except.error "Empty model response (no text)."
  | some text =>
    let t0 := pyStrip text
    let t :=
      if pyStartsWith t0 "```" then
        pyStrip (replaceFirst (pyStripChars t0 backtickChar) "json\n")
      else t0
    match json_loads t with
    | some j => Except.ok j
    | none => Except.error "JSONDecodeError"

/-- The parsing step of `tailor_resume` (app.py lines 129-146):
`safe_json(getattr(resp, "text", "") or "")` — a missing or `None`/empty
text attribute becomes the empty string. -/
def tailor_parse (respText : Option String) : Except String Json :=
  safe_json (some (respText.getD ""))

-- ---------------------------------------------------------------------------
-- Dates (`datetime.date`) and the ISO helpers of app.py (lines 85-94)
-- ---------------------------------------------------------------------------

/-- A calendar date as Python's `datetime.date` stores it. -/
structure Date where
  year : Nat
  month : Nat
  day : Nat
deriving DecidableEq

/-- Leap-year rule used by `datetime` (proleptic Gregorian). -/
def isLeapYear (y : Nat) : Bool :=
  y % 4 = 0 && (y % 100 ≠ 0 || y % 400 = 0)

def daysInMonth (y m : Nat) : Nat :=
  if m = 2 then (if isLeapYear y then 29 else 28)
  else if m = 4 ∨ m = 6 ∨ m = 9 ∨ m = 11 then 30
  else 31

/-- The validity check `datetime.date` performs at construction
(`MINYEAR = 1`, `MAXYEAR = 9999`). -/
def isValidDate (d : Date) : Bool :=
  decide (1 ≤ d.year) && decide (d.year ≤ 9999) &&
  decide (1 ≤ d.month) && decide (d.month ≤ 12) &&
  decide (1 ≤ d.day) && decide (d.day ≤ daysInMonth d.year d.month)

/-- Decimal digit character for `k < 10`. -/
def digitChar : Nat → Char
  | 0 => '0'
  | 1 => '1'
  | 2 => '2'
  | 3 => '3'
  | 4 => '4'
  | 5 => '5'
  | 6 => '6'
  | 7 => '7'
  | 8 => '8'
  | _ => '9'

/-- Numeric value of a decimal digit character. -/
def charDigitVal (c : Char) : Option Nat :=
  if 48 ≤ c.toNat ∧ c.toNat ≤ 57 then some (c.toNat - 48) else none

/-- Model of `date.isoformat()`: `%04d-%02d-%02d` (years never exceed 9999). -/
def date_isoformat (d : Date) : String :=
  ⟨[digitChar (d.year / 1000 % 10), digitChar (d.year / 100 % 10),
    digitChar (d.year / 10 % 10), digitChar (d.year % 10), '-',
    digitChar (d.month / 10 % 10), digitChar (d.month % 10), '-',
    digitChar (d.day / 10 % 10), digitChar (d.day % 10)]⟩

/-- Model of `date.fromisoformat` on the canonical `YYYY-MM-DD` shape (the only shape
`isoformat` produces, and the only one the app round-trips); any other input
is a parse failure.  The constructed date is validated as `date()` does. -/
def date_fromisoformat (s : String) : Option Date :=
  match s.data with
  | [y1, y2, y3, y4, h1, m1, m2, h2, d1, d2] =>
    if h1 = '-' ∧ h2 = '-' then
      match charDigitVal y1, charDigitVal y2, charDigitVal y3, charDigitVal y4,
            charDigitVal m1, charDigitVal m2, charDigitVal d1, charDigitVal d2 with
      | some a, some b, some c, some d, some e, some f, some g, some h =>
        let dt : Date := ⟨((a * 10 + b) * 10 + c) * 10 + d, e * 10 + f, g * 10 + h⟩
        if isValidDate dt then some dt else none
      | _, _, _, _, _, _, _, _ => none
    else none
  | _ => none

/-- Model of `iso_or_empty(d)` from app.py: `d.isoformat() if d else ""` (a date object
is always truthy, `None` is falsy). -/
def iso_or_empty (d : Option Date) : String :=
  match d with
  | some d => date_isoformat d
  | none => ""

/-- Model of `iso_to_date_or_none(s)` from app.py: empty/falsy input gives `None`;
otherwise `date.fromisoformat(s)`, with any exception mapped to `None`. -/
def iso_to_date_or_none (s : String) : Option Date :=
  if s = "" then none else date_fromisoformat s

/-- Lexicographic order on dates; for valid dates this is exactly calendar
order, which is the order Postgres's `date` comparison uses. -/
def Date.le (a b : Date) : Prop :=
  a.year < b.year ∨ (a.year = b.year ∧
    (a.month < b.month ∨ (a.month = b.month ∧ a.day ≤ b.day)))

instance (a b : Date) : Decidable (Date.le a b) := by
  unfold Date.le
  exact inferInstance

/-- Model of `to_char(d, 'MM/DD/YYYY')` used by `jobs_report_rows`. -/
def to_char_mdy (d : Date) : String :=
  ⟨[digitChar (d.month / 10 % 10), digitChar (d.month % 10), '/',
    digitChar (d.day / 10 % 10), digitChar (d.day % 10), '/',
    digitChar (d.year / 1000 % 10), digitChar (d.year / 100 % 10),
    digitChar (d.year / 10 % 10), digitChar (d.year % 10)]⟩

-- ---------------------------------------------------------------------------
-- Database rows and state (tables `resumes`, `jobs`, `versions`)
-- ---------------------------------------------------------------------------

/-- Placeholder for the `created_at default now()` timestamp; no claim
depends on its value. -/
def epochDate : Date := ⟨1970, 1, 1⟩

/-- A row of the `resumes` table. -/
structure ResumeRow where
  id : Nat
  user_email : String
  name : String
  resume_text : String
  created_at : Date
deriving DecidableEq

/-- A row of the `jobs` table.  The date columns have Postgres type `date`
and are nullable; writers pass ISO strings that the column casts back to
dates (`iso_or_empty` / `fromisoformat` round-trip, proved below). -/
structure JobRow where
  id : Nat
  user_email : String
  company : String
  title : String
  location : String
  url : String
  jd_text : String
  status : String
  status_date : Option Date
  applied_date : Option Date
  followup_date : Option Date
  finished_date : Option Date
  finished_outcome : String
  notes : String
  created_at : Date
deriving DecidableEq

/-- A row of the `versions` table. -/
structure VersionRow where
  id : Nat
  user_email : String
  job_id : Nat
  base_resume_id : Nat
  version_name : String
  tailored_resume : String
  changes_summary : String
  suggested_additions : String
  accuracy_checklist : String
  created_at : Date
deriving DecidableEq

/-- The database: three tables plus the serial-id counters. -/
structure DBState where
  resumes : List ResumeRow
  jobs : List JobRow
  versions : List VersionRow
  nextResumeId : Nat
  nextJobId : Nat
  nextVersionId : Nat
deriving DecidableEq

def emptyDB : DBState := ⟨[], [], [], 1, 1, 1⟩

/-- The `ORDER BY id DESC` comparison. -/
def byIdDesc (f : α → Nat) (a b : α) : Prop := f b ≤ f a

instance (f : α → Nat) : DecidableRel (byIdDesc f) := fun a b => Nat.decLe _ _

-- ---------------------------------------------------------------------------
-- Repository operations (db.py); the session user is the argument `u`
-- ---------------------------------------------------------------------------

/-- Model of `insert_resume(name, resume_text)`: no validation; inserts
`(user_email, name.strip(), resume_text)` and returns the new serial id. -/
def insert_resume (s : DBState) (u name resume_text : String) : Nat × DBState :=
  (s.nextResumeId,
   { s with
     resumes := s.resumes ++ [⟨s.nextResumeId, u, pyStrip name, resume_text, epochDate⟩],
     nextResumeId := s.nextResumeId + 1 })

/-- Row shape of `list_resumes` (`select id, name, created_at`). -/
structure ResumeListRow where
  id : Nat
  name : String
  created_at : Date
deriving DecidableEq

/-- Model of `list_resumes()`: rows of the session user, newest (highest id) first. -/
def list_resumes (u : String) (s : DBState) : List ResumeListRow :=
  (List.insertionSort (byIdDesc ResumeRow.id)
      (s.resumes.filter (fun r => r.user_email == u))).map
    (fun r => ⟨r.id, r.name, r.created_at⟩)

/-- Row shape of `get_resume` (`select id, name, resume_text, created_at`). -/
structure ResumeGetRow where
  id : Nat
  name : String
  resume_text : String
  created_at : Date
deriving DecidableEq

/-- Model of `get_resume(resume_id)`: `where user_email = u and id = rid limit 1`;
`KeyError("Resume not found.")` when no row matches. -/
def get_resume (u : String) (rid : Nat) (s : DBState) : Except String ResumeGetRow :=
  match (s.resumes.filter (fun r => r.user_email == u && r.id == rid)).head? with
  | some r => Except.ok ⟨r.id, r.name, r.resume_text, r.created_at⟩
  | none => Except.error "Resume not found."

/-- Model of `insert_job(company, title, location, url, jd_text, status="Target")`:
no validation; strips the four metadata fields and inserts. -/
def insert_job (s : DBState) (u company title location url jd_text status : String) :
    Nat × DBState :=
  (s.nextJobId,
   { s with
     jobs := s.jobs ++
       [⟨s.nextJobId, u, pyStrip company, pyStrip title, pyStrip location,
         pyStrip url, jd_text, status, none, none, none, none, "", "", epochDate⟩],
     nextJobId := s.nextJobId + 1 })

/-- Row shape of `list_jobs` (the selected columns; `status_date` is not
selected by the source query). -/
structure JobListRow where
  id : Nat
  company : String
  title : String
  location : String
  url : String
  status : String
  applied_date : Option Date
  followup_date : Option Date
  finished_date : Option Date
  finished_outcome : String
  notes : String
  created_at : Date
deriving DecidableEq

/-- Model of `list_jobs()`: rows of the session user, newest first. -/
def list_jobs (u : String) (s : DBState) : List JobListRow :=
  (List.insertionSort (byIdDesc JobRow.id)
      (s.jobs.filter (fun j => j.user_email == u))).map
    (fun j => ⟨j.id, j.company, j.title, j.location, j.url, j.status,
      j.applied_date, j.followup_date, j.finished_date, j.finished_outcome,
      j.notes, j.created_at⟩)

/-- Model of `get_job(job_id)` (`select *`): `KeyError("Job not found.")` if absent. -/
def get_job (u : String) (jid : Nat) (s : DBState) : Except String JobRow :=
  match (s.jobs.filter (fun j => j.user_email == u && j.id == jid)).head? with
  | some j => Except.ok j
  | none => Except.error "Job not found."

/-- Model of `update_job_status(job_id, status, status_date)`: sets exactly the
`status` and `status_date` columns of the matching row; no other column is
touched and no validation happens here. -/
def update_job_status (s : DBState) (u : String) (jid : Nat) (status : String)
    (status_date : Option Date) : DBState :=
  { s with
    jobs := s.jobs.map (fun j =>
      if j.user_email == u && j.id == jid then
        { j with status := status, status_date := status_date }
      else j) }

/-- Model of `update_job_reporting_dates`: full replace of the five date/outcome/notes
columns of the matching row. -/
def update_job_reporting_dates (s : DBState) (u : String) (jid : Nat)
    (applied_date followup_date finished_date : Option Date)
    (finished_outcome notes : String) : DBState :=
  { s with
    jobs := s.jobs.map (fun j =>
      if j.user_email == u && j.id == jid then
        { j with
          applied_date := applied_date,
          followup_date := followup_date,
          finished_date := finished_date,
          finished_outcome := pyStrip finished_outcome,
          notes := pyStrip notes }
      else j) }

/-- Model of `insert_version(...)`: no existence or ownership check on `job_id` or
`base_resume_id`; the row is inserted unconditionally. -/
def insert_version (s : DBState) (u : String) (job_id base_resume_id : Nat)
    (version_name tailored_resume changes_summary suggested_additions
     accuracy_checklist : String) : Nat × DBState :=
  (s.nextVersionId,
   { s with
     versions := s.versions ++
       [⟨s.nextVersionId, u, job_id, base_resume_id, pyStrip version_name,
         tailored_resume, changes_summary, suggested_additions,
         accuracy_checklist, epochDate⟩],
     nextVersionId := s.nextVersionId + 1 })

/-- Row shape of `list_versions_for_job` (`v.id, v.version_name,
v.tailored_resume, v.created_at, r.name as resume_name`). -/
structure VersionListRow where
  id : Nat
  version_name : String
  tailored_resume : String
  created_at : Date
  resume_name : String
deriving DecidableEq

/-- Model of `list_versions_for_job(job_id)`: the session user's versions of the job,
inner-joined with `resumes` on `r.id = v.base_resume_id` — note the join has
no `r.user_email` condition — newest first. -/
def list_versions_for_job (u : String) (jid : Nat) (s : DBState) : List VersionListRow :=
  List.insertionSort (byIdDesc VersionListRow.id)
    ((s.versions.filter (fun v => v.user_email == u && v.job_id == jid)).flatMap
      (fun v => (s.resumes.filter (fun r => r.id == v.base_resume_id)).map
        (fun r => ⟨v.id, v.version_name, v.tailored_resume, v.created_at, r.name⟩)))

/-- Row shape of `jobs_report_rows` with its display aliases;
`to_char(date, 'MM/DD/YYYY')` of a NULL date is NULL. -/
structure ReportRow where
  job_id : Nat
  job_name : String
  title : String
  location : String
  url : String
  status : String
  applied_date : Option String
  followup_date : Option String
  finished_date : Option String
  finished_outcome : String
  notes : String
  created_date : String
deriving DecidableEq

/-- Model of `jobs_report_rows()`: the session user's jobs, newest first, dates
formatted `MM/DD/YYYY`. -/
def jobs_report_rows (u : String) (s : DBState) : List ReportRow :=
  (List.insertionSort (byIdDesc JobRow.id)
      (s.jobs.filter (fun j => j.user_email == u))).map
    (fun j => ⟨j.id, j.company, j.title, j.location, j.url, j.status,
      j.applied_date.map to_char_mdy, j.followup_date.map to_char_mdy,
      j.finished_date.map to_char_mdy, j.finished_outcome, j.notes,
      to_char_mdy j.created_at⟩)

/-- Row shape of `followups_due_rows`
(`select id, company, title, followup_date, status`). -/
structure FollowupRow where
  id : Nat
  company : String
  title : String
  followup_date : Option Date
  status : String
deriving DecidableEq

/-- The `ORDER BY followup_date ASC` comparison on the selected rows (SQL's
default NULLS LAST for ascending order; the filtered rows are all non-null). -/
def followupAsc (a b : FollowupRow) : Prop :=
  match a.followup_date, b.followup_date with
  | none, none => True
  | none, some _ => False
  | some _, none => True
  | some x, some y => Date.le x y

instance : (a b : FollowupRow) → Decidable (followupAsc a b) := fun a b => by
  unfold followupAsc
  rcases a.followup_date with _ | x <;> rcases b.followup_date with _ | y <;>
    exact inferInstance

/-- Model of `followups_due_rows(today)`: the session user's jobs with a non-null
`followup_date <= today`, ordered by `followup_date` ascending; the `status`
column is selected but never filtered on. -/
def followups_due_rows (u : String) (today : Date) (s : DBState) : List FollowupRow :=
  List.insertionSort followupAsc
    ((s.jobs.filter (fun j => j.user_email == u &&
        match j.followup_date with
        | some d => decide (Date.le d today)
        | none => false)).map
      (fun j => ⟨j.id, j.company, j.title, j.followup_date, j.status⟩))

-- ---------------------------------------------------------------------------
-- Gemini response handling of `extract_job_from_url` (app.py lines 98-127)
-- ---------------------------------------------------------------------------

/-- One part of a response candidate's content (`getattr(p, "text", "")`). -/
structure RespPart where
  text : String
deriving DecidableEq

/-- A candidate's content (`getattr(content, "parts", None) or []`). -/
structure RespContent where
  parts : List RespPart
deriving DecidableEq

/-- One element of `resp.candidates`. -/
structure RespCandidate where
  content : RespContent
deriving DecidableEq

/-- The response object: `getattr(resp, "text", None)` and
`getattr(resp, "candidates", None) or []`. -/
structure GenResp where
  text : Option String
  candidates : List RespCandidate
deriving DecidableEq

/-- Outcome of `extract_job_from_url`'s response handling.  A parse failure
of a non-empty primary text propagates the `json.JSONDecodeError` raised
inside `safe_json` (`jsonError`); the explicit
`RuntimeError("URL could not be read ...")` is `extractionError`. -/
inductive ExtractResult where
  | ok (j : Json) : ExtractResult
  | jsonError (msg : String) : ExtractResult
  | extractionError (msg : String) : ExtractResult

def extractErrMsg : String :=
  "URL could not be read (blocked/paywalled). Paste the JD manually."

/-- The fallback path (app.py lines 116-127): take the first candidate, join
its parts' texts with newlines and strip; a non-empty join is parsed with
`safe_json`, whose exceptions the surrounding `try` swallows; every failing
way out ends in the `RuntimeError`. -/
def extract_fallback (resp : GenResp) : ExtractResult :=
  match resp.candidates with
  | [] => ExtractResult.extractionError extractErrMsg
  | c :: _ =>
    let joined := pyStrip (joinNl (c.content.parts.map RespPart.text))
    if joined ≠ "" then
      match safe_json (some joined) with
      | Except.ok j => ExtractResult.ok j
      | Except.error _ => ExtractResult.extractionError extractErrMsg
    else ExtractResult.extractionError extractErrMsg

/-- Response handling of `extract_job_from_url`: a non-empty primary text is
handed to `safe_json` outside any `try`, so its parse errors propagate;
only an absent/empty primary text reaches the fallback path. -/
def extract_job_response (resp : GenResp) : ExtractResult :=
  match resp.text with
  | some t =>
    if pyStrip t ≠ "" then
      match safe_json (some t) with
      | Except.ok j => ExtractResult.ok j
      | Except.error e => ExtractResult.jsonError e
    else extract_fallback resp
  | none => extract_fallback resp

/-- Whether the primary text channel is absent or whitespace-only
(`isinstance(text, str) and text.strip()` failing). -/
def primaryBlank (resp : GenResp) : Prop := pyStrip (resp.text.getD "") = ""

/-- The joined fallback text (empty when there are no candidates). -/
def fallbackJoined (resp : GenResp) : String :=
  match resp.candidates with
  | [] => ""
  | c :: _ => pyStrip (joinNl (c.content.parts.map RespPart.text))

-- ---------------------------------------------------------------------------
-- Button handlers of app.py
-- ---------------------------------------------------------------------------

/-- What the job-extraction call contributes to the save-job flow: the three
`job_data.get(...) or ""` fields on success, or the raised exception. -/
structure ExtractedMeta where
  jd_text : String
  title : String
  location : String
deriving DecidableEq

/-- Outcome the save-job handler surfaces (`st.success` / `st.error`). -/
inductive SaveOutcome where
  | saved (id : Nat) (msg : String) : SaveOutcome
  | rejected (msg : String) : SaveOutcome
deriving DecidableEq

def SaveOutcome.isError : SaveOutcome → Bool
  | SaveOutcome.saved _ _ => false
  | SaveOutcome.rejected _ => true

/-- The "Save job (URL or pasted JD)" handler (app.py lines 207-249),
parameterised by the extraction call's outcome `ext` (the network call
itself is outside the model).  A blank job name is rejected before any
insert (the `st.stop` path lands in the `except` branch, which rejects
again).  When the URL is non-empty and extraction raises, the `except`
branch saves with the pasted JD if one is present.  Every insert passes
`company = job_name.strip()` and a non-empty `jd_text`. -/
def save_job (s : DBState) (u : String) (job_name job_url manual_jd : String)
    (ext : Except Unit ExtractedMeta) : SaveOutcome × DBState :=
  if pyStrip job_name = "" then
    (SaveOutcome.rejected "Please enter a job name.", s)
  else if pyStrip job_url ≠ "" then
    match ext with
    | Except.ok m =>
      let jd0 := pyStrip m.jd_text
      let jd := if jd0 = "" then pyStrip manual_jd else jd0
      if jd = "" then
        (SaveOutcome.rejected "Provide a working URL OR paste the job description text.", s)
      else
        let r := insert_job s u (pyStrip job_name) (pyStrip m.title)
          (pyStrip m.location) (pyStrip job_url) jd "Target"
        (SaveOutcome.saved r.1 "Job saved", r.2)
    | Except.error _ =>
      let jd := pyStrip manual_jd
      if jd = "" then (SaveOutcome.rejected "Failed to save job.", s)
      else
        let r := insert_job s u (pyStrip job_name) "" "" (pyStrip job_url) jd "Target"
        (SaveOutcome.saved r.1 "Job saved using pasted JD", r.2)
  else
    let jd := pyStrip manual_jd
    if jd = "" then
      (SaveOutcome.rejected "Provide a working URL OR paste the job description text.", s)
    else
      let r := insert_job s u (pyStrip job_name) "" "" "(pasted)" jd "Target"
      (SaveOutcome.saved r.1 "Job saved", r.2)

/-- The job-description text the handler would persist, by branch: the
stripped extracted `jd_text` when the URL path succeeds with a non-empty
one, else the stripped pasted text. -/
def effectiveJd (job_url manual_jd : String) (ext : Except Unit ExtractedMeta) : String :=
  if pyStrip job_url ≠ "" then
    match ext with
    | Except.ok m =>
      let jd0 := pyStrip m.jd_text
      if jd0 = "" then pyStrip manual_jd else jd0
    | Except.error _ => pyStrip manual_jd
  else pyStrip manual_jd

/-- Outcome the update-status handler surfaces. -/
inductive StatusOutcome where
  | updated : StatusOutcome
  | rejected (msg : String) : StatusOutcome
deriving DecidableEq

/-- The "Update status" handler (app.py lines 285-294): a non-`Target`
status with no date is rejected before any write; otherwise
`update_job_status` runs (the date travels as `iso_or_empty` text and the
`date` column casts it back, the round-trip proved by claim C10). -/
def update_status_handler (s : DBState) (u : String) (job_pick : Nat)
    (new_status : String) (status_date_val : Option Date) : StatusOutcome × DBState :=
  if new_status ≠ "Target" ∧ status_date_val = none then
    (StatusOutcome.rejected "Please select a date for this status.", s)
  else
    (StatusOutcome.updated, update_job_status s u job_pick new_status status_date_val)

-- ---------------------------------------------------------------------------
-- Definitions used by the claim statements
-- ---------------------------------------------------------------------------

/-- The sub-database holding exactly the rows owned by `u` (same counters). -/
def restrictDB (u : String) (s : DBState) : DBState :=
  ⟨s.resumes.filter (fun r => r.user_email == u),
   s.jobs.filter (fun j => j.user_email == u),
   s.versions.filter (fun v => v.user_email == u),
   s.nextResumeId, s.nextJobId, s.nextVersionId⟩

/-- Every resume matched by one of `u`'s versions is itself owned by `u`
(the referential discipline the application's own flows maintain). -/
def versionsOwnClosed (u : String) (s : DBState) : Prop :=
  ∀ v ∈ s.versions, v.user_email = u →
    ∀ r ∈ s.resumes, r.id = v.base_resume_id → r.user_email = u

instance (u : String) (s : DBState) : Decidable (versionsOwnClosed u s) := by
  unfold versionsOwnClosed
  exact inferInstance

/-- The exact fence-wrapped generation reply of the specification's
tailoring example. -/
def tailorReplyPayload : String :=
  "```json\n\x7b\"tailored_resume\":\"X\",\"changes_summary\":[],\"suggested_additions\":[],\"accuracy_checklist\":[]\x7d\n```"

def d20240110 : Date := ⟨2024, 1, 10⟩

def d20240201 : Date := ⟨2024, 2, 1⟩

/-- A persisted job with `applied_date` unset, for claim C1. -/
def jobNeverApplied : JobRow :=
  ⟨1, "u", "Acme", "", "", "(pasted)", "jd", "Target", none, none, none, none,
   "", "", epochDate⟩

def dbOneJob : DBState := ⟨[], [jobNeverApplied], [], 1, 2, 1⟩

/-- A resume owned by `bob`, used to exhibit the cross-user join of
`list_versions_for_job`. -/
def resumeOfBob : ResumeRow := ⟨1, "bob", "Secret Resume", "text", epochDate⟩

/-- A version owned by `alice` whose `base_resume_id` is bob's resume id. -/
def versionOfAlice : VersionRow :=
  ⟨1, "alice", 1, 1, "v1", "tailored", "[]", "[]", "[]", epochDate⟩

def dbLeak : DBState := ⟨[resumeOfBob], [], [versionOfAlice], 2, 1, 2⟩

/-- A well-owned database: alice's version references alice's resume. -/
def dbOwn : DBState :=
  ⟨[⟨1, "alice", "R1", "txt", epochDate⟩], [],
   [⟨1, "alice", 1, 1, "v1", "tailored", "[]", "[]", "[]", epochDate⟩], 2, 1, 2⟩

/-- A response whose primary text is non-empty but not JSON, with no
fallback candidates. -/
def helloResp : GenResp := ⟨some "hello", []⟩

-- ---------------------------------------------------------------------------
-- General lemmas
-- ---------------------------------------------------------------------------

theorem filter_filter_of_imp {α : Type} (p q : α → Bool) (l : List α)
    (h : ∀ x ∈ l, p x = true → q x = true) :
    (l.filter q).filter p = l.filter p := by
  induction l with
  | nil => rfl
  | cons a t ih =>
    have iht := ih (fun x hx hpx => h x (List.mem_cons_of_mem a hx) hpx)
    cases hq : q a
    · have hp : p a = false := by
        cases hp : p a
        · rfl
        · have := h a (List.mem_cons_self a t) hp
          rw [this] at hq
          exact Bool.noConfusion hq
      simp [List.filter_cons, hq, hp, iht]
    · cases hp : p a <;> simp [List.filter_cons, hq, hp, iht]

theorem flatMap_congr_mem {α β : Type} (l : List α) (f g : α → List β)
    (h : ∀ x ∈ l, f x = g x) : l.flatMap f = l.flatMap g := by
  induction l with
  | nil => rfl
  | cons a t ih =>
    have := ih (fun x hx => h x (List.mem_cons_of_mem a hx))
    simp [List.flatMap_cons, h a (List.mem_cons_self a t), this]

theorem safe_json_blank (t : String) (h : pyStrip t = "") :
    safe_json (some t) = Except.error "JSONDecodeError" := by
  have e : safe_json (some t) =
      (match json_loads (if pyStartsWith (pyStrip t) "```" then
          pyStrip (replaceFirst (pyStripChars (pyStrip t) backtickChar) "json\n")
        else pyStrip t) with
       | some j => Except.ok j
       | none => Except.error "JSONDecodeError") := rfl
  rw [e, h]
  rfl

theorem dateLe_total (a b : Date) : Date.le a b ∨ Date.le b a := by
  unfold Date.le
  omega

theorem dateLe_trans (a b c : Date) (h1 : Date.le a b) (h2 : Date.le b c) :
    Date.le a c := by
  unfold Date.le at h1 h2 ⊢
  omega

instance : IsTotal FollowupRow followupAsc := by
  constructor
  intro a b
  unfold followupAsc
  rcases a.followup_date with _ | x <;> rcases b.followup_date with _ | y <;>
    simp [dateLe_total]

instance : IsTrans FollowupRow followupAsc := by
  constructor
  intro a b c h1 h2
  obtain ⟨_, _, _, fa, _⟩ := a
  obtain ⟨_, _, _, fb, _⟩ := b
  obtain ⟨_, _, _, fc, _⟩ := c
  unfold followupAsc at h1 h2 ⊢
  rcases fa with _ | x <;> rcases fb with _ | y <;> rcases fc with _ | z <;>
    simp_all
  exact dateLe_trans x y z h1 h2

-- ---------------------------------------------------------------------------
-- Claims
-- ---------------------------------------------------------------------------

/-- C1 counterexample: a persisted job with `applied_date` unset, updated
through the status handler to "Applied" with date 2024-01-10, still has
`applied_date = NULL` afterwards — not 2024-01-10 as the claim demands:
no auto-fill happens. -/
theorem claim_C1_counterexample :
    (update_status_handler dbOneJob "u" 1 "Applied" (some d20240110)).2.jobs.map
        JobRow.applied_date = [none] ∧
    (update_status_handler dbOneJob "u" 1 "Applied" (some d20240110)).2.jobs.map
        JobRow.applied_date ≠ [some d20240110] := by
  constructor
  · rfl
  · decide

/-- C1 amended: updating a job's status (directly via `update_job_status` or
through the "Update status" handler) sets only `status` and `status_date`;
`applied_date` is never modified — in particular it is not auto-filled on a
transition to "Applied", with any date, first time or later.  (`applied_date`
changes only through the separate dates/notes update, which fully replaces
it.) -/
theorem claim_C1 (s : DBState) (u : String) (jid : Nat) (status : String)
    (sd : Option Date) :
    (update_job_status s u jid status sd).jobs.map JobRow.applied_date =
      s.jobs.map JobRow.applied_date ∧
    (update_status_handler s u jid status sd).2.jobs.map JobRow.applied_date =
      s.jobs.map JobRow.applied_date := by
  have hdb : (update_job_status s u jid status sd).jobs.map JobRow.applied_date =
      s.jobs.map JobRow.applied_date := by
    unfold update_job_status
    rw [List.map_map]
    apply List.map_congr_left
    intro j _
    by_cases hc : (j.user_email == u && j.id == jid) = true <;>
      simp [Function.comp, hc]
  refine ⟨hdb, ?_⟩
  unfold update_status_handler
  split
  · rfl
  · exact hdb

/-- C5 counterexample: `insert_version` against a database with no resumes
at all, with `base_resume_id = 99`, succeeds and creates the Version row —
it does not fail with any validation error. -/
theorem claim_C5_counterexample :
    (insert_version emptyDB "u" 1 99 "v1" "t" "[]" "[]" "[]").2.versions =
      [⟨1, "u", 1, 99, "v1", "t", "[]", "[]", "[]", epochDate⟩] ∧
    (insert_version emptyDB "u" 1 99 "v1" "t" "[]" "[]" "[]").2.resumes = [] := by
  exact ⟨rfl, rfl⟩

/-- C5 amended: `insert_version` performs no existence or ownership check on
`jobId`/`baseResumeId`: even when no stored resume has the given
`base_resume_id`, the call succeeds, returns the next serial id and appends
the Version row (referential enforcement, if any, lives only in the external
database schema; `list_versions_for_job`'s inner join silently hides such
dangling versions). -/
theorem claim_C5 (s : DBState) (u : String) (jid bid : Nat)
    (vn tr cs sa ac : String) (h : ∀ r ∈ s.resumes, r.id ≠ bid) :
    (insert_version s u jid bid vn tr cs sa ac).1 = s.nextVersionId ∧
    (insert_version s u jid bid vn tr cs sa ac).2.versions =
      s.versions ++
        [⟨s.nextVersionId, u, jid, bid, pyStrip vn, tr, cs, sa, ac, epochDate⟩] :=
  ⟨rfl, rfl⟩

/-- C5 witness: the amended claim at a concrete empty database and an
unresolvable `base_resume_id`. -/
theorem claim_C5_witness :
    (insert_version emptyDB "u" 1 99 "v1" "t" "[]" "[]" "[]").1 = 1 ∧
    (insert_version emptyDB "u" 1 99 "v1" "t" "[]" "[]" "[]").2.versions =
      [⟨1, "u", 1, 99, "v1", "t", "[]", "[]", "[]", epochDate⟩] := by
  have h := claim_C5 emptyDB "u" 1 99 "v1" "t" "[]" "[]" "[]" (by simp [emptyDB])
  exact ⟨h.1, by rw [h.2]; rfl⟩

/-- C6: the generation reply consisting of the exact fence-wrapped payload
is parsed by `tailor_resume`'s parsing (`safe_json`: code-fence stripping
followed by a JSON parse) into the object with `tailored_resume = "X"` and
the three empty lists. -/
theorem claim_C6 :
    tailor_parse (some tailorReplyPayload) =
      Except.ok (Json.obj
        [("tailored_resume", Json.str "X"), ("changes_summary", Json.arr []),
         ("suggested_additions", Json.arr []),
         ("accuracy_checklist", Json.arr [])]) := by
  rfl

/-- C9 counterexample: `insert_resume` with an empty name succeeds and
creates a Resume row whose `name` is empty — it does not fail with any
validation error. -/
theorem claim_C9_counterexample :
    (insert_resume emptyDB "u" "" "line1\nline2").1 = 1 ∧
    (insert_resume emptyDB "u" "" "line1\nline2").2.resumes =
      [⟨1, "u", "", "line1\nline2", epochDate⟩] := by
  exact ⟨rfl, rfl⟩

/-- C9 amended: `insert_resume` performs no validation: a call whose name
strips to the empty string still returns the next serial id and appends a
Resume row with empty `name`.  (The UI guard skips the save when the name
field is the falsy empty string, but e.g. a whitespace-only name reaches
`insert_resume` and is persisted with `name = ""`.) -/
theorem claim_C9 (s : DBState) (u name text : String) (h : pyStrip name = "") :
    (insert_resume s u name text).1 = s.nextResumeId ∧
    (insert_resume s u name text).2.resumes =
      s.resumes ++ [⟨s.nextResumeId, u, "", text, epochDate⟩] := by
  refine ⟨rfl, ?_⟩
  unfold insert_resume
  rw [h]

/-- C9 witness: the amended claim at a whitespace-only name. -/
theorem claim_C9_witness :
    (insert_resume emptyDB "u" "   " "txt").1 = 1 ∧
    (insert_resume emptyDB "u" "   " "txt").2.resumes =
      [⟨1, "u", "", "txt", epochDate⟩] := by
  have h := claim_C9 emptyDB "u" "   " "txt" (by rfl)
  exact ⟨h.1, by rw [h.2]; rfl⟩

/-- C3: a status update to any non-`Target` status without a date is
rejected by the handler with the validation message, and the database —
the job's prior status and all of its date fields included — is unchanged. -/
theorem claim_C3 (s : DBState) (u : String) (jp : Nat) (ns : String)
    (h : ns ≠ "Target") :
    (update_status_handler s u jp ns none).1 =
      StatusOutcome.rejected "Please select a date for this status." ∧
    (update_status_handler s u jp ns none).2 = s := by
  unfold update_status_handler
  rw [if_pos ⟨h, rfl⟩]
  exact ⟨rfl, rfl⟩

/-- C3 witness: the validation at a concrete job and status "Applied". -/
theorem claim_C3_witness :
    (update_status_handler dbOneJob "u" 1 "Applied" none).1 =
      StatusOutcome.rejected "Please select a date for this status." ∧
    (update_status_handler dbOneJob "u" 1 "Applied" none).2 = dbOneJob :=
  claim_C3 dbOneJob "u" 1 "Applied" (by decide)

/-- C2: any attempt to save a job whose name strips to empty, or whose
effective job-description text (extracted or pasted) is empty, is rejected
by the save-job flow and the database is unchanged — no Job row is
created. -/
theorem claim_C2 (s : DBState) (u jn ju mj : String)
    (ext : Except Unit ExtractedMeta)
    (h : pyStrip jn = "" ∨ effectiveJd ju mj ext = "") :
    (save_job s u jn ju mj ext).1.isError = true ∧
    (save_job s u jn ju mj ext).2 = s := by
  unfold save_job
  by_cases hn : pyStrip jn = ""
  · rw [if_pos hn]
    exact ⟨rfl, rfl⟩
  · have hjd : effectiveJd ju mj ext = "" := h.resolve_left hn
    unfold effectiveJd at hjd
    rw [if_neg hn]
    by_cases hu : pyStrip ju ≠ ""
    · rw [if_pos hu] at hjd ⊢
      cases ext with
      | ok m =>
        dsimp only at hjd ⊢
        rw [if_pos hjd]
        exact ⟨rfl, rfl⟩
      | error e =>
        dsimp only at hjd ⊢
        rw [if_pos hjd]
        exact ⟨rfl, rfl⟩
    · rw [if_neg hu] at hjd ⊢
      dsimp only at hjd ⊢
      rw [if_pos hjd]
      exact ⟨rfl, rfl⟩

/-- C2 witness: a save attempt with blank name and no job description. -/
theorem claim_C2_witness :
    (save_job emptyDB "u" "" "" "" (Except.error ())).1.isError = true ∧
    (save_job emptyDB "u" "" "" "" (Except.error ())).2 = emptyDB :=
  claim_C2 emptyDB "u" "" "" "" (Except.error ()) (Or.inl (by rfl))

theorem extract_fallback_ok (resp : GenResp) (j : Json)
    (h : safe_json (some (fallbackJoined resp)) = Except.ok j) :
    extract_fallback resp = ExtractResult.ok j := by
  obtain ⟨rt, rc⟩ := resp
  unfold fallbackJoined at h
  unfold extract_fallback
  cases rc with
  | nil =>
    rw [safe_json_blank "" rfl] at h
    exact Except.noConfusion h
  | cons c cands =>
    dsimp only at h ⊢
    by_cases hj : pyStrip (joinNl (c.content.parts.map RespPart.text)) ≠ ""
    · rw [if_pos hj, h]
    · rw [not_not] at hj
      rw [hj, safe_json_blank "" rfl] at h
      exact Except.noConfusion h

theorem extract_fallback_err (resp : GenResp)
    (h : (safe_json (some (fallbackJoined resp))).isOk = false) :
    extract_fallback resp = ExtractResult.extractionError extractErrMsg := by
  obtain ⟨rt, rc⟩ := resp
  unfold fallbackJoined at h
  unfold extract_fallback
  cases rc with
  | nil => rfl
  | cons c cands =>
    dsimp only at h ⊢
    by_cases hj : pyStrip (joinNl (c.content.parts.map RespPart.text)) ≠ ""
    · rw [if_pos hj]
      cases hs : safe_json (some (pyStrip (joinNl (c.content.parts.map RespPart.text)))) with
      | ok j => rw [hs] at h; exact Bool.noConfusion h
      | error e => rfl
    · rw [if_neg hj]

/-- C7 amended: the first two parts of the claim hold — a primary text that
parses is returned, and with a blank primary channel a parsing fallback
join is returned — and with a blank primary channel an unusable fallback
yields `ExtractionError`.  But the claim's final part is wrong about the
error kind: a NON-empty primary text that fails to parse raises the JSON
parse error itself (propagated out of `safe_json`), not `ExtractionError`;
only the blank-primary path can produce `ExtractionError`. -/
theorem claim_C7 :
    (∀ (resp : GenResp) (t : String) (j : Json), resp.text = some t →
        safe_json (some t) = Except.ok j →
        extract_job_response resp = ExtractResult.ok j) ∧
    (∀ (resp : GenResp) (j : Json), primaryBlank resp →
        safe_json (some (fallbackJoined resp)) = Except.ok j →
        extract_job_response resp = ExtractResult.ok j) ∧
    (∀ resp : GenResp, primaryBlank resp →
        (safe_json (some (fallbackJoined resp))).isOk = false →
        extract_job_response resp = ExtractResult.extractionError extractErrMsg) ∧
    (∀ (resp : GenResp) (t e : String), resp.text = some t → pyStrip t ≠ "" →
        safe_json (some t) = Except.error e →
        extract_job_response resp = ExtractResult.jsonError e) := by
  refine ⟨?_, ?_, ?_, ?_⟩
  · intro resp t j ht hok
    have hne : pyStrip t ≠ "" := by
      intro hblank
      rw [safe_json_blank t hblank] at hok
      exact Except.noConfusion hok
    obtain ⟨rt, rc⟩ := resp
    simp only at ht
    subst ht
    unfold extract_job_response
    dsimp only
    rw [if_pos hne, hok]
  · intro resp j hblank hok
    obtain ⟨rt, rc⟩ := resp
    unfold primaryBlank at hblank
    unfold extract_job_response
    cases rt with
    | none => exact extract_fallback_ok ⟨none, rc⟩ j hok
    | some t0 =>
      simp only [Option.getD] at hblank
      dsimp only
      rw [if_neg (by simpa using hblank)]
      exact extract_fallback_ok ⟨some t0, rc⟩ j hok
  · intro resp hblank herr
    obtain ⟨rt, rc⟩ := resp
    unfold primaryBlank at hblank
    unfold extract_job_response
    cases rt with
    | none => exact extract_fallback_err ⟨none, rc⟩ herr
    | some t0 =>
      simp only [Option.getD] at hblank
      dsimp only
      rw [if_neg (by simpa using hblank)]
      exact extract_fallback_err ⟨some t0, rc⟩ herr
  · intro resp t e ht hne herr
    obtain ⟨rt, rc⟩ := resp
    simp only at ht
    subst ht
    unfold extract_job_response
    dsimp only
    rw [if_pos hne, herr]

/-- C7 witness: a response with no primary text and no candidates fails
with the `ExtractionError` message. -/
theorem claim_C7_witness :
    extract_job_response ⟨none, []⟩ = ExtractResult.extractionError extractErrMsg :=
  claim_C7.2.2.1 ⟨none, []⟩ (by rfl) (by rfl)

/-- C7 counterexample: the reply "hello" is not parseable JSON on either
channel (the fallback is empty), yet the operation does NOT fail with
`ExtractionError`: the primary text is non-empty, so the JSON parse error
propagates instead — contradicting the claim's "fails with ExtractionError
(and with no other error kind)". -/
theorem claim_C7_counterexample :
    extract_job_response helloResp = ExtractResult.jsonError "JSONDecodeError" ∧
    (safe_json (some "hello")).isOk = false ∧
    (safe_json (some (fallbackJoined helloResp))).isOk = false ∧
    extract_job_response helloResp ≠ ExtractResult.extractionError extractErrMsg := by
  refine ⟨rfl, rfl, rfl, ?_⟩
  intro hcontra
  rw [show extract_job_response helloResp = ExtractResult.jsonError "JSONDecodeError"
    from rfl] at hcontra
  exact ExtractResult.noConfusion hcontra

/-- C4: for every stored set of jobs and every date `today`,
`followups_due_rows` returns exactly the current user's jobs whose
`followup_date` is non-null and `<= today` — with no condition on `status`
— ordered ascending by `followup_date`. -/
theorem claim_C4 (u : String) (today : Date) (s : DBState) :
    List.Sorted followupAsc (followups_due_rows u today s) ∧
    (∀ r : FollowupRow, r ∈ followups_due_rows u today s ↔
      ∃ j ∈ s.jobs, j.user_email = u ∧
        (∃ d, j.followup_date = some d ∧ Date.le d today) ∧
        r = ⟨j.id, j.company, j.title, j.followup_date, j.status⟩) := by
  constructor
  · exact List.sorted_insertionSort followupAsc _
  · intro r
    unfold followups_due_rows
    rw [(List.perm_insertionSort followupAsc _).mem_iff]
    simp only [List.mem_map, List.mem_filter, Bool.and_eq_true, beq_iff_eq]
    constructor
    · rintro ⟨j, ⟨hjmem, hju, hdue⟩, rfl⟩
      refine ⟨j, hjmem, hju, ?_, rfl⟩
      cases hfd : j.followup_date with
      | none => rw [hfd] at hdue; exact Bool.noConfusion hdue
      | some d =>
        rw [hfd] at hdue
        exact ⟨d, rfl, of_decide_eq_true hdue⟩
    · rintro ⟨j, hjmem, hju, ⟨d, hfd, hle⟩, rfl⟩
      refine ⟨j, ⟨hjmem, hju, ?_⟩, rfl⟩
      rw [hfd]
      exact decide_eq_true hle

theorem bool_and_left {a b : Bool} (h : (a && b) = true) : a = true := by
  cases a
  · exact Bool.noConfusion h
  · rfl

/-- C8 counterexample: `list_versions_for_job`'s join on
`r.id = v.base_resume_id` has no user condition, so when alice's version
references a resume id owned by bob, alice's result contains bob's resume
name — and differs from the result over alice's rows alone.  Reads as
alice are therefore NOT unaffected by bob's rows. -/
theorem claim_C8_counterexample :
    list_versions_for_job "alice" 1 dbLeak =
      [⟨1, "v1", "tailored", epochDate, "Secret Resume"⟩] ∧
    list_versions_for_job "alice" 1 (restrictDB "alice" dbLeak) = [] ∧
    list_versions_for_job "alice" 1 dbLeak ≠
      list_versions_for_job "alice" 1 (restrictDB "alice" dbLeak) := by
  refine ⟨rfl, rfl, ?_⟩
  decide

/-- C8 amended: every read operation filters by the session user, and for
`list_resumes`, `get_resume`, `list_jobs`, `get_job`, `jobs_report_rows`
and `followups_due_rows` the result is computed from the caller's own rows
alone (restricting the database to the caller's rows changes nothing), so
other users' rows cannot affect it.  `list_versions_for_job` has the same
property only under the proviso that every resume matched by one of the
caller's versions is owned by the caller: its resume-name join has no user
filter (see the counterexample). -/
theorem claim_C8 :
    (∀ (u : String) (s : DBState),
      list_resumes u (restrictDB u s) = list_resumes u s) ∧
    (∀ (u : String) (rid : Nat) (s : DBState),
      get_resume u rid (restrictDB u s) = get_resume u rid s) ∧
    (∀ (u : String) (s : DBState),
      list_jobs u (restrictDB u s) = list_jobs u s) ∧
    (∀ (u : String) (jid : Nat) (s : DBState),
      get_job u jid (restrictDB u s) = get_job u jid s) ∧
    (∀ (u : String) (s : DBState),
      jobs_report_rows u (restrictDB u s) = jobs_report_rows u s) ∧
    (∀ (u : String) (today : Date) (s : DBState),
      followups_due_rows u today (restrictDB u s) = followups_due_rows u today s) ∧
    (∀ (u : String) (jid : Nat) (s : DBState), versionsOwnClosed u s →
      list_versions_for_job u jid (restrictDB u s) =
        list_versions_for_job u jid s) := by
  refine ⟨?_, ?_, ?_, ?_, ?_, ?_, ?_⟩
  · intro u s
    unfold list_resumes restrictDB
    rw [filter_filter_of_imp _ _ _ (fun x _ hx => hx)]
  · intro u rid s
    unfold get_resume restrictDB
    rw [filter_filter_of_imp _ _ _ (fun x _ hx => bool_and_left hx)]
  · intro u s
    unfold list_jobs restrictDB
    rw [filter_filter_of_imp _ _ _ (fun x _ hx => hx)]
  · intro u jid s
    unfold get_job restrictDB
    rw [filter_filter_of_imp _ _ _ (fun x _ hx => bool_and_left hx)]
  · intro u s
    unfold jobs_report_rows restrictDB
    rw [filter_filter_of_imp _ _ _ (fun x _ hx => hx)]
  · intro u today s
    unfold followups_due_rows restrictDB
    rw [filter_filter_of_imp _ _ _ (fun x _ hx => bool_and_left hx)]
  · intro u jid s hH
    unfold list_versions_for_job restrictDB
    dsimp only
    rw [filter_filter_of_imp _ _ _ (fun x _ hx => bool_and_left hx)]
    congr 1
    apply flatMap_congr_mem
    intro v hv
    have hvm := List.mem_filter.mp hv
    have hvu : v.user_email = u :=
      beq_iff_eq.mp (bool_and_left hvm.2)
    congr 1
    apply filter_filter_of_imp
    intro r hr hid
    exact beq_iff_eq.mpr (hH v hvm.1 hvu r hr (beq_iff_eq.mp hid))

/-- C8 witness: the `list_versions_for_job` part of the amended claim at a
concrete well-owned database. -/
theorem claim_C8_witness :
    list_versions_for_job "alice" 1 (restrictDB "alice" dbOwn) =
      list_versions_for_job "alice" 1 dbOwn :=
  claim_C8.2.2.2.2.2.2 "alice" 1 dbOwn (by decide)

theorem daysInMonth_le31 (y m : Nat) : daysInMonth y m ≤ 31 := by
  unfold daysInMonth
  split
  · split <;> omega
  · split <;> omega

theorem charDigitVal_digitChar (k : Nat) (h : k < 10) :
    charDigitVal (digitChar k) = some k := by
  interval_cases k <;> rfl

theorem date_fromiso_isoformat (d : Date) (h : isValidDate d = true) :
    date_fromisoformat (date_isoformat d) = some d := by
  obtain ⟨y, m, dy⟩ := d
  have hb : ((((1 ≤ y ∧ y ≤ 9999) ∧ 1 ≤ m) ∧ m ≤ 12) ∧ 1 ≤ dy) ∧
      dy ≤ daysInMonth y m := by
    simpa [isValidDate, Bool.and_eq_true, decide_eq_true_iff] using h
  obtain ⟨⟨⟨⟨⟨hb1, hb2⟩, hb3⟩, hb4⟩, hb5⟩, hb6⟩ := hb
  have h31 := daysInMonth_le31 y m
  unfold date_isoformat date_fromisoformat
  dsimp only
  rw [if_pos ⟨rfl, rfl⟩]
  rw [charDigitVal_digitChar _ (Nat.mod_lt _ (by omega)),
      charDigitVal_digitChar _ (Nat.mod_lt _ (by omega)),
      charDigitVal_digitChar _ (Nat.mod_lt _ (by omega)),
      charDigitVal_digitChar _ (Nat.mod_lt _ (by omega)),
      charDigitVal_digitChar _ (Nat.mod_lt _ (by omega)),
      charDigitVal_digitChar _ (Nat.mod_lt _ (by omega)),
      charDigitVal_digitChar _ (Nat.mod_lt _ (by omega)),
      charDigitVal_digitChar _ (Nat.mod_lt _ (by omega))]
  dsimp only
  have hy : ((y / 1000 % 10 * 10 + y / 100 % 10) * 10 + y / 10 % 10) * 10 + y % 10 = y := by
    omega
  have hm : m / 10 % 10 * 10 + m % 10 = m := by omega
  have hd : dy / 10 % 10 * 10 + dy % 10 = dy := by omega
  rw [hy, hm, hd, if_pos h]

/-- C10: the nullable-date serialization helpers round-trip: for every valid
date `d`, `iso_to_date_or_none (iso_or_empty (some d)) = some d`, and for
the absent case `iso_or_empty none = ""` and `iso_to_date_or_none "" = none`. -/
theorem claim_C10 :
    (∀ d : Date, isValidDate d = true →
      iso_to_date_or_none (iso_or_empty (some d)) = some d) ∧
    iso_or_empty none = "" ∧
    iso_to_date_or_none "" = none := by
  refine ⟨?_, rfl, rfl⟩
  intro d h
  have hne : date_isoformat d ≠ "" := by
    intro heq
    have hdata := congrArg String.data heq
    simp [date_isoformat] at hdata
  unfold iso_or_empty iso_to_date_or_none
  rw [if_neg hne]
  exact date_fromiso_isoformat d h

/-- C10 witness: the round-trip at the concrete date 2024-01-10. -/
theorem claim_C10_witness :
    iso_to_date_or_none (iso_or_empty (some d20240110)) = some d20240110 ∧
    iso_or_empty none = "" ∧
    iso_to_date_or_none "" = none :=
  ⟨claim_C10.1 d20240110 (by decide), claim_C10.2.1, claim_C10.2.2⟩
